import Mathlib

/-!
Verification development for the maas-automation repository.

The definitions below are shallow embeddings of the Python source:
- `sleepTime`, `retryAux`, `retryRun` embed `retry` from
  `src/maas_automation/utils.py` (lines 9-44);
- `waitAux`, `waitForState` embed `wait_for_state` from the same file
  (lines 47-110);
- `MachineRec`, `findByMac`, `findBySerial`, `createOrFind` embed the
  lookup logic of `src/maas_automation/machine.py`;
- `Interface`, `matchingInterfaces` embed the interface-selection loop of
  `configure_bond_by_vlan` in `src/maas_automation/network.py` (lines 388-427);
- `StageEnv`, `runStages`, `executeSingleMachine`, `aggregateResults` embed
  `Controller._execute_single_machine`, `_execute_single_machine_safe` and the
  result-collection loop of `execute_workflow` in
  `src/maas_automation/controller.py`.

Remote calls are modelled by explicit outcome parameters (`Except`-valued
oracles): a `.error` value is a raised exception, `.ok` a normal return.
Unbounded Python loops are given explicit fuel; runs that need more fuel
return `none`. Python float delays are modelled over `ℚ`.
-/

namespace MaasAuto

/-! ## retry (utils.py lines 9-44) -/

/-- The sleep computed after the `attempt`-th failure (1-indexed), mirroring
`sleep_time = min(delay * (backoff ** (attempt - 1)), max_delay)` (utils.py line 41). -/
def sleepTime (delay backoff maxDelay : ℚ) (attempt : ℕ) : ℚ :=
  min (delay * backoff ^ (attempt - 1)) maxDelay

/-- Observable outcome of a `retry` run: the value returned or exception raised,
the number of invocations of `fn`, and the sleeps performed in order. -/
structure RetryOutcome (ε α : Type) where
  result : Except ε α
  calls : ℕ
  delays : List ℚ
deriving Repr

/-- Fueled embedding of the `while True` loop of `retry`.  `f i` is the outcome
of the `(i+1)`-th invocation of `fn`; `calls` counts invocations so far and
`ds` accumulates sleeps (most recent first).  `none` means the fuel ran out
before the loop terminated. -/
def retryAux {ε α : Type} (f : ℕ → Except ε α) (retries : ℕ)
    (delay backoff maxDelay : ℚ) :
    ℕ → ℕ → List ℚ → Option (RetryOutcome ε α)
  | 0, _, _ => none
  | fuel + 1, calls, ds =>
    match f calls with
    | .ok a => some ⟨.ok a, calls + 1, ds.reverse⟩
    | .error e =>
      let attempt := calls + 1
      if 0 < retries ∧ retries ≤ attempt then
        some ⟨.error e, attempt, ds.reverse⟩
      else
        retryAux f retries delay backoff maxDelay fuel attempt
          (sleepTime delay backoff maxDelay attempt :: ds)

/-- Embedding of `retry(fn, retries, delay, backoff, max_delay)`. -/
def retryRun {ε α : Type} (f : ℕ → Except ε α) (retries : ℕ)
    (delay backoff maxDelay : ℚ) (fuel : ℕ) : Option (RetryOutcome ε α) :=
  retryAux f retries delay backoff maxDelay fuel 0 []

/-! ## wait_for_state (utils.py lines 47-110) -/

/-- Terminal outcome of a `wait_for_state` run: normal return, the
`RuntimeError` for an error state, the `RuntimeError` for too many consecutive
check failures, or the `TimeoutError`. -/
inductive PollResult
  | reached (s : String)
  | erroredState (s : String)
  | erroredChecks
  | timedOut (last : Option String)
deriving DecidableEq, Repr

/-- Fueled embedding of the polling loop of `wait_for_state`.  `check i` is the
outcome of the `(i+1)`-th call of `check_fn` (`.error` = raised exception);
`last` is `last_state`, `consec` is `consecutive_errors`, `elapsedVar` is the
Python variable `elapsed` (stale on the exception path, which never updates
it), and `now` is the real elapsed time, advancing by `pollInterval` at each
sleep.  The consecutive-failure ceiling is the hardcoded
`max_consecutive_errors = 5` of the source. -/
def waitAux (check : ℕ → Except String String) (targets errors : List String)
    (timeout pollInterval : ℕ) :
    ℕ → ℕ → Option String → ℕ → ℕ → ℕ → Option PollResult
  | 0, _, last, _, elapsedVar, _ =>
    if timeout ≤ elapsedVar then some (.timedOut last) else none
  | fuel + 1, i, last, consec, elapsedVar, now =>
    if timeout ≤ elapsedVar then some (.timedOut last)
    else
      match check i with
      | .ok s =>
        let last' := if last ≠ some s then some s else last
        if s ∈ targets then some (.reached s)
        else if s ∈ errors then some (.erroredState s)
        else waitAux check targets errors timeout pollInterval fuel (i + 1) last' 0
          (now + pollInterval) (now + pollInterval)
      | .error _ =>
        if 5 ≤ consec + 1 then some .erroredChecks
        else waitAux check targets errors timeout pollInterval fuel (i + 1) last (consec + 1)
          elapsedVar (now + pollInterval)

/-- Embedding of `wait_for_state(check_fn, target_states, timeout,
poll_interval, error_states)`. -/
def waitForState (check : ℕ → Except String String) (targets errors : List String)
    (timeout pollInterval fuel : ℕ) : Option PollResult :=
  waitAux check targets errors timeout pollInterval fuel 0 none 0 0 0

/-! ## Machine lookup (machine.py) -/

/-- The fields of a remote machine record that the lookup code reads:
`system_id`, `hostname`, `hardware_info["system_serial"]` (empty string when
absent), `tag_names`, `status_name`, and the `mac_address` of each entry of
`interfaces`. -/
structure MachineRec where
  system_id : String
  hostname : String
  system_serial : String
  tag_names : List String
  status_name : String
  macs : List String
deriving DecidableEq, Repr

/-- The fields of one machine's configuration fragment that `create_or_find`
and the step-1 lookup read.  `none` models an absent key. -/
structure MachineCfg where
  hostname : Option String
  serial_number : Option String
  pxe_mac : Option String
deriving DecidableEq, Repr

/-- Python `str.lower()`, character by character. -/
def lowerStr (s : String) : String :=
  ⟨s.data.map Char.toLower⟩

/-- Python `str.strip()` on a character list: drop whitespace from both ends. -/
def stripChars (l : List Char) : List Char :=
  ((l.dropWhile Char.isWhitespace).reverse.dropWhile Char.isWhitespace).reverse

/-- Python `str.lower().strip()`. -/
def stripLower (s : String) : String :=
  ⟨stripChars (s.data.map Char.toLower)⟩

/-- `mac.lower().replace(":", "").replace("-", "")` (machine.py lines 37, 49):
lowercase, then remove every colon and every dash (removing all occurrences
of the two single-character patterns in sequence is the same as filtering
both out). -/
def normMac (s : String) : String :=
  ⟨(s.data.map Char.toLower).filter fun c => !(c == ':') && !(c == '-')⟩

/-- Embedding of `MachineManager.find_by_mac` (machine.py lines 35-52): first
machine having an interface whose normalised MAC equals the normalised query. -/
def findByMac (machines : List MachineRec) (mac : String) : Option MachineRec :=
  machines.find? fun m => m.macs.any fun x => normMac x == normMac mac

/-- Python's `needle in hay` substring test, on character lists. -/
def containsSub (hay needle : List Char) : Bool :=
  hay.tails.any fun t => needle.isPrefixOf t

/-- The per-machine test of `find_by_serial` (machine.py lines 63-76): the
lowercased, stripped hardware serial is non-empty and equals the query, or
the lowercased query occurs inside some lowercased tag name. -/
def serialMatches (serialLower : String) (m : MachineRec) : Bool :=
  (!(stripLower m.system_serial).data.isEmpty && stripLower m.system_serial == serialLower)
    || m.tag_names.any fun tag => containsSub (lowerStr tag).data serialLower.data

/-- Embedding of `MachineManager.find_by_serial` (machine.py lines 54-78). -/
def findBySerial (machines : List MachineRec) (serial : String) : Option MachineRec :=
  machines.find? (serialMatches (stripLower serial))

/-- The remote effect of `MachineManager.update_hostname` (machine.py lines
80-93): a PUT of the new hostname on the machine with that system id. -/
def updateHostnameState (machines : List MachineRec) (sid h : String) : List MachineRec :=
  machines.map fun m => if m.system_id = sid then { m with hostname := h } else m

/-- Embedding of `MachineManager.create_or_find` (machine.py lines 95-130).
`updateOutcome` is the outcome of the hostname PUT when one is issued.  The
return value pairs the machine object returned (`none` when the serial search
found nothing) with the remote machine list after the call; a `.error` is a
raised exception.  The creation code after the unconditional `return machine`
(lines 132-175) is unreachable and therefore not part of the embedding. -/
def createOrFind (machines : List MachineRec) (cfg : MachineCfg)
    (updateOutcome : Except String Unit) :
    Except String (Option MachineRec × List MachineRec) :=
  match cfg.serial_number with
  | none => .error "ValueError: Machine config must have serial_number"
  | some serial =>
    if serial = "" then .error "ValueError: Machine config must have serial_number"
    else
      match findBySerial machines serial with
      | none => .ok (none, machines)
      | some m =>
        match cfg.hostname with
        | some h =>
          if h ≠ "" ∧ m.hostname ≠ h then
            match updateOutcome with
            | .error e => .error e
            | .ok _ =>
              .ok (some { m with hostname := h }, updateHostnameState machines m.system_id h)
          else .ok (some m, machines)
        | none => .ok (some m, machines)

/-! ## Interface selection (network.py, configure_bond_by_vlan lines 388-427) -/

/-- The fields of an interface entry that the selection loop reads: `name`
(`none` when missing), `type`, the direct `vlan.vid` (`none` when the `vlan`
object or its `vid` is missing), and each link's `subnet.vlan.vid`. -/
structure Interface where
  name : Option String
  itype : String
  vlanVid : Option ℕ
  linkVids : List (Option ℕ)
deriving DecidableEq, Repr

/-- One iteration of the selection loop: skip unnamed interfaces, skip bond-
and bridge-typed ones, admit on a direct VLAN-id match, otherwise admit when
some link's subnet VLAN id matches; deduplicate by name. -/
def matchStep (vlanId : ℕ) (acc : List String) (iface : Interface) : List String :=
  match iface.name with
  | none => acc
  | some n =>
    if iface.itype = "bond" ∨ iface.itype = "bridge" then acc
    else if iface.vlanVid = some vlanId then
      if n ∈ acc then acc else acc ++ [n]
    else if iface.linkVids.any fun v => v == some vlanId then
      if n ∈ acc then acc else acc ++ [n]
    else acc

/-- The `matching_interfaces` list computed by `configure_bond_by_vlan` for the
primary VLAN id. -/
def matchingInterfaces (interfaces : List Interface) (vlanId : ℕ) : List String :=
  interfaces.foldl (matchStep vlanId) []

/-! ## Controller (controller.py) -/

/-- Outcomes of the remote calls the per-machine pipeline makes, one per
stage; a `.error` is an exception raised by that stage's body.
`bondOutcomes` gives the outcome of `configure_bond_by_vlan` for each entry of
the machine's `bonds` configuration. -/
structure StageEnv where
  updateHostnameOutcome : Except String Unit
  powerStage : Except String Unit
  biosStage : Except String Unit
  bootStage : Except String Unit
  storageStage : Except String Unit
  commissionStage : Except String Unit
  bondOutcomes : List (Except String Unit)
  deployStage : Except String Unit
  releaseStage : Except String Unit
  deleteStage : Except String Unit

/-- The set_hostname stage body (controller.py lines 193-208): with a falsy
hostname it only warns; otherwise it calls `self.machine.get_by_id`, a method
`MachineManager` does not define, so it raises `AttributeError`. -/
def hostnameStage (cfg : MachineCfg) : Except String Unit :=
  match cfg.hostname with
  | none => .ok ()
  | some h =>
    if h = "" then .ok ()
    else .error "AttributeError: MachineManager has no attribute get_by_id"

/-- Whether a stage outcome is a raised exception. -/
def isErr : Except String Unit → Bool
  | .error _ => true
  | .ok _ => false

/-- The set_network_bond stage body (controller.py lines 255-278): an empty
bonds configuration only warns; otherwise every bond is attempted, failures
are collected, and the stage raises if any bond failed. -/
def bondStage (outcomes : List (Except String Unit)) : Except String Unit :=
  if outcomes.isEmpty then .ok ()
  else if outcomes.any isErr then .error "Bond configuration failed"
  else .ok ()

/-- Runs the gated stages of `_execute_single_machine` in their fixed order:
each triple is (stage name, gate, body outcome).  Returns the names of the
stages that ran and either `.ok` or the first raised exception. -/
def runStages : List (String × Bool × Except String Unit) → List String × Except String Unit
  | [] => ([], .ok ())
  | (name, enabled, outcome) :: rest =>
    if enabled then
      match outcome with
      | .ok _ =>
        let r := runStages rest
        (name :: r.1, r.2)
      | .error e => ([name], .error e)
    else runStages rest

/-- Observables of one `_execute_single_machine` call: the stages that ran,
the remote machine list as left by the step-1 lookup, and the return value
(`.ok none` = returned `None`, `.ok (some sid)` = returned the system id,
`.error` = an exception escaped the method). -/
structure PipelineRun where
  trace : List String
  machinesAfterLookup : List MachineRec
  result : Except String (Option String)
deriving Repr

/-- Embedding of `Controller._execute_single_machine` (controller.py lines
132-326).  Step 1 runs `create_or_find` whether or not a create/find action
was requested (both branches call it and both catch every exception into a
`None` return); the remaining stages run in the fixed order, gated on
membership of their action in `actions` (BIOS and boot additionally on a
non-empty configuration), and the first exception aborts the method.  A
delete action, when reached, returns `None`. -/
def executeSingleMachine (machines : List MachineRec) (cfg : MachineCfg)
    (actions : List String) (biosNonempty bootNonempty : Bool) (env : StageEnv) :
    PipelineRun :=
  match createOrFind machines cfg env.updateHostnameOutcome with
  | .error _ => ⟨["find"], machines, .ok none⟩
  | .ok (none, ms) => ⟨["find"], ms, .ok none⟩
  | .ok (some m, ms) =>
    if m.system_id = "" then ⟨["find"], ms, .ok none⟩
    else
      let stages := [
        ("set_hostname", actions.contains "set_hostname", hostnameStage cfg),
        ("set_power", actions.contains "set_power", env.powerStage),
        ("set_bios", actions.contains "set_bios" && biosNonempty, env.biosStage),
        ("set_boot_order", actions.contains "set_boot_order" && bootNonempty, env.bootStage),
        ("configure_storage", actions.contains "configure_storage", env.storageStage),
        ("commission", actions.contains "commission", env.commissionStage),
        ("set_network_bond", actions.contains "set_network_bond", bondStage env.bondOutcomes),
        ("deploy", actions.contains "deploy", env.deployStage),
        ("release", actions.contains "release", env.releaseStage)]
      match runStages stages with
      | (tr, .error e) => ⟨"find" :: tr, ms, .error e⟩
      | (tr, .ok _) =>
        if actions.contains "delete" then
          match env.deleteStage with
          | .ok _ => ⟨"find" :: (tr ++ ["delete"]), ms, .ok none⟩
          | .error e => ⟨"find" :: (tr ++ ["delete"]), ms, .error e⟩
        else ⟨"find" :: tr, ms, .ok (some m.system_id)⟩

/-- Embedding of `Controller._execute_single_machine_safe` (controller.py
lines 116-130): every exception is caught and turned into a `None` result. -/
def executeSingleMachineSafe (machines : List MachineRec) (cfg : MachineCfg)
    (actions : List String) (biosNonempty bootNonempty : Bool) (env : StageEnv) :
    Option String :=
  match (executeSingleMachine machines cfg actions biosNonempty bootNonempty env).result with
  | .error _ => none
  | .ok r => r

/-- The result-collection loop of `execute_workflow` (controller.py lines
72-84, parallel mode): per-machine results arrive in completion order; a
truthy system id is appended, a `None`/empty id or a raised collection
exception contributes nothing. -/
def aggregateResults (results : List (Option String)) : List String :=
  results.foldl (fun acc r =>
    match r with
    | some s => if s = "" then acc else acc ++ [s]
    | none => acc) []

/-- The contribution of one completed result to the aggregate list. -/
def keepId : Option String → Option String
  | some s => if s = "" then none else some s
  | none => none

/-! ## Concrete data used in counterexamples and witnesses -/

/-- A stage environment in which every remote call succeeds and no bonds are
configured. -/
def allOkEnv : StageEnv :=
  ⟨.ok (), .ok (), .ok (), .ok (), .ok (), .ok (), [], .ok (), .ok (), .ok ()⟩

/-- A sample remote machine: system id abc123, hostname h1, hardware serial
sn1, one interface MAC. -/
def sampleMachine : MachineRec :=
  ⟨"abc123", "h1", "sn1", [], "READY", ["aa:bb:cc:dd:ee:ff"]⟩

/-- A sample configuration fragment matching `sampleMachine` by serial and
hostname. -/
def sampleCfg : MachineCfg := ⟨some "h1", some "sn1", none⟩

end MaasAuto

namespace MaasAuto

/-- Helper: a run of `retryAux` over an always-failing operation with a positive
retry ceiling stops after exactly `retries` invocations, raising the last error,
and records one sleep per non-final failure. -/
theorem retryAux_always_fail {ε α : Type} (f : ℕ → Except ε α) (errs : ℕ → ε)
    (hf : ∀ i, f i = .error (errs i)) (n : ℕ) (hn : 0 < n) (d b m : ℚ) :
    ∀ fuel calls ds, calls < n → n ≤ calls + fuel →
      retryAux f n d b m fuel calls ds =
        some ⟨.error (errs (n - 1)), n,
          ds.reverse ++ (List.range' (calls + 1) (n - 1 - calls)).map (sleepTime d b m)⟩ := by
  intro fuel
  induction fuel with
  | zero => intro calls ds h1 h2; omega
  | succ fuel ih =>
    intro calls ds h1 h2
    simp only [retryAux, hf]
    by_cases hc : n ≤ calls + 1
    · have heq : calls + 1 = n := by omega
      have hrange : n - 1 - calls = 0 := by omega
      have hcalls : calls = n - 1 := by omega
      rw [if_pos ⟨hn, hc⟩, hrange, heq]
      simp [← hcalls]
    · rw [if_neg (fun h => hc h.2)]
      rw [ih (calls + 1) (sleepTime d b m (calls + 1) :: ds) (by omega) (by omega)]
      have hlen : n - 1 - calls = (n - 1 - (calls + 1)) + 1 := by omega
      rw [hlen, List.range'_succ, List.map_cons, List.reverse_cons]
      simp

/-- Helper: with `retries = 0` (unbounded mode), an operation that fails on
invocations `0..k-1` and succeeds on invocation `k` returns that success after
exactly `k + 1` invocations. -/
theorem retryAux_fail_then_succeed {ε α : Type} (f : ℕ → Except ε α) (errs : ℕ → ε)
    (k : ℕ) (a : α) (hfail : ∀ i, i < k → f i = .error (errs i)) (hok : f k = .ok a)
    (d b m : ℚ) :
    ∀ fuel calls ds, calls ≤ k → k + 1 ≤ calls + fuel →
      retryAux f 0 d b m fuel calls ds =
        some ⟨.ok a, k + 1,
          ds.reverse ++ (List.range' (calls + 1) (k - calls)).map (sleepTime d b m)⟩ := by
  intro fuel
  induction fuel with
  | zero => intro calls ds h1 h2; omega
  | succ fuel ih =>
    intro calls ds h1 h2
    by_cases hc : calls = k
    · subst hc
      simp only [retryAux, hok]
      simp
    · have hlt : calls < k := by omega
      simp only [retryAux, hfail calls hlt]
      rw [if_neg (by simp)]
      rw [ih (calls + 1) (sleepTime d b m (calls + 1) :: ds) (by omega) (by omega)]
      have hlen : k - calls = (k - (calls + 1)) + 1 := by omega
      rw [hlen, List.range'_succ, List.map_cons, List.reverse_cons]
      simp

/-- C4: for every retry ceiling `n > 0` and every operation failing on every
invocation, `retry` invokes the operation exactly `n` times and the error it
finally raises is the error of the last (`n`-th) attempt, unwrapped. -/
theorem retry_exhaustion_raises_last_error {ε α : Type} (f : ℕ → Except ε α)
    (errs : ℕ → ε) (n : ℕ) (d b m : ℚ) (fuel : ℕ)
    (hf : ∀ i, f i = .error (errs i)) (hn : 0 < n) (hfuel : n ≤ fuel) :
    ∃ ds, retryRun f n d b m fuel = some ⟨.error (errs (n - 1)), n, ds⟩ := by
  exact ⟨(List.range' 1 (n - 1)).map (sleepTime d b m),
    retryAux_always_fail f errs hf n hn d b m fuel 0 [] hn (by omega)⟩

/-- Witness for C4 at `n = 3`: three invocations, the third error raised. -/
theorem retry_exhaustion_raises_last_error_witness :
    ∃ ds, retryRun (fun i => (Except.error i : Except ℕ Unit)) 3 1 2 60 5 =
      some ⟨.error 2, 3, ds⟩ :=
  retry_exhaustion_raises_last_error (fun i => Except.error i) (fun i => i)
    3 1 2 60 5 (fun _ => rfl) (by decide) (by decide)

/-- C5: with `retries = 0` (unbounded mode), an operation that fails exactly `k`
times and then succeeds returns the success result after exactly `k + 1`
invocations, for any finite `k`. -/
theorem retry_unbounded_succeeds_after_k {ε α : Type} (f : ℕ → Except ε α)
    (errs : ℕ → ε) (k : ℕ) (a : α) (d b m : ℚ) (fuel : ℕ)
    (hfail : ∀ i, i < k → f i = .error (errs i)) (hok : f k = .ok a)
    (hfuel : k + 1 ≤ fuel) :
    ∃ ds, retryRun f 0 d b m fuel = some ⟨.ok a, k + 1, ds⟩ := by
  exact ⟨(List.range' 1 k).map (sleepTime d b m),
    retryAux_fail_then_succeed f errs k a hfail hok d b m fuel 0 [] (by omega) (by omega)⟩

/-- Witness for C5 at `k = 4`: five invocations, success value returned. -/
theorem retry_unbounded_succeeds_after_k_witness :
    ∃ ds, retryRun
        (fun i => if i < 4 then (Except.error i : Except ℕ String) else .ok "done")
        0 1 2 60 9 = some ⟨.ok "done", 5, ds⟩ :=
  retry_unbounded_succeeds_after_k
    (fun i => if i < 4 then (Except.error i : Except ℕ String) else .ok "done")
    (fun i => i) 4 "done" 1 2 60 9
    (fun i hi => by simp [hi]) (by simp) (by decide)

/-- C6 counterexample: with `baseDelay = 4` and `backoff = 1/2` the delay
before retry attempt 2 is strictly smaller than the delay before retry
attempt 1, so the delay sequence of this policy is not monotonically
non-decreasing, refuting the claim quantified over every retry policy. -/
theorem retry_backoff_not_monotone_counterexample :
    ¬ (sleepTime 4 (1/2) 60 1 ≤ sleepTime 4 (1/2) 60 2) := by
  simp only [sleepTime]
  norm_num

/-- C6 (amended): the delay before retry attempt `n` (1-indexed) equals
`min(baseDelay * backoff^(n-1), maxDelay)` — in particular an exhausted run
with ceiling `n` sleeps exactly that amount before attempts `1..n-1` — the
sequence is always bounded above by `maxDelay`, and it is monotonically
non-decreasing provided `backoff ≥ 1` and `baseDelay ≥ 0` (for `backoff < 1`
it can decrease). -/
theorem retry_delay_formula_bounded_monotone (d b m : ℚ) :
    (∀ (ε α : Type) (f : ℕ → Except ε α) (errs : ℕ → ε) (n fuel : ℕ),
        (∀ i, f i = .error (errs i)) → 0 < n → n ≤ fuel →
        ∃ r, retryRun f n d b m fuel = some r ∧
          r.delays = (List.range' 1 (n - 1)).map (sleepTime d b m)) ∧
    (∀ i, sleepTime d b m i = min (d * b ^ (i - 1)) m) ∧
    (1 ≤ b → 0 ≤ d → ∀ i, 1 ≤ i → sleepTime d b m i ≤ sleepTime d b m (i + 1)) ∧
    (∀ i, sleepTime d b m i ≤ m) := by
  refine ⟨?_, fun i => rfl, ?_, fun i => min_le_right _ _⟩
  · intro ε α f errs n fuel hf hn hfuel
    exact ⟨⟨.error (errs (n - 1)), n, (List.range' 1 (n - 1)).map (sleepTime d b m)⟩,
      retryAux_always_fail f errs hf n hn d b m fuel 0 [] hn (by omega), rfl⟩
  · intro hb hd i hi
    have hpow : b ^ (i - 1) ≤ b ^ (i + 1 - 1) := by
      apply pow_le_pow_right₀ hb
      omega
    exact min_le_min (mul_le_mul_of_nonneg_left hpow hd) le_rfl

/-- Witness for C6 at `baseDelay = 1`, `backoff = 2`, `maxDelay = 60`:
monotone step at attempt 3 and the bound at attempt 3. -/
theorem retry_delay_formula_bounded_monotone_witness :
    sleepTime 1 2 60 3 ≤ sleepTime 1 2 60 4 ∧ sleepTime 1 2 60 3 ≤ 60 :=
  ⟨(retry_delay_formula_bounded_monotone 1 2 60).2.2.1 (by norm_num) (by norm_num) 3
      (by norm_num),
    (retry_delay_formula_bounded_monotone 1 2 60).2.2.2 3⟩

/-- Helper: a tick of `wait_for_state` whose check returns a state in
`error_states` and not in `target_states` raises the error-state
`RuntimeError` at once, regardless of the poll position, the last state, the
consecutive-failure counter or the time already spent, as long as the timeout
has not elapsed. -/
theorem waitAux_error_state_step (check : ℕ → Except String String)
    (targets errors : List String) (timeout pollInterval i consec elapsedVar now fuel : ℕ)
    (last : Option String) (s : String)
    (hrun : elapsedVar < timeout) (hs : check i = .ok s)
    (herr : s ∈ errors) (hdisj : s ∉ targets) :
    waitAux check targets errors timeout pollInterval (fuel + 1) i last consec elapsedVar now
      = some (.erroredState s) := by
  simp only [waitAux, hs]
  rw [if_neg (by omega)]
  simp [herr, hdisj]

/-- C7: whenever a tick's state read returns a state listed in `errorStates`
(and, per the PollSpec disjointness invariant, not in `targetStates`), the
poller transitions to the error outcome on that very tick — no retry, before
the timeout — and in particular on the very first tick of a fresh
`wait_for_state` call with a positive timeout. -/
theorem poller_error_state_is_immediate (check : ℕ → Except String String)
    (targets errors : List String) (timeout pollInterval i consec elapsedVar now fuel : ℕ)
    (last : Option String) (s : String)
    (hrun : elapsedVar < timeout) (hs : check i = .ok s)
    (herr : s ∈ errors) (hdisj : s ∉ targets) :
    waitAux check targets errors timeout pollInterval (fuel + 1) i last consec elapsedVar now
        = some (.erroredState s) ∧
      (0 < timeout → check 0 = .ok s →
        waitForState check targets errors timeout pollInterval (fuel + 1)
          = some (.erroredState s)) := by
  refine ⟨waitAux_error_state_step check targets errors timeout pollInterval i consec
    elapsedVar now fuel last s hrun hs herr hdisj, fun ht h0 => ?_⟩
  exact waitAux_error_state_step check targets errors timeout pollInterval 0 0 0 0 fuel
    none s ht h0 herr hdisj

/-- Witness for C7: a first-tick read of FAILED with targets READY ends the
poll immediately with the error-state outcome. -/
theorem poller_error_state_is_immediate_witness :
    waitAux (fun _ => .ok "FAILED") ["READY"] ["FAILED"] 600 5 1 0 none 0 0 0
        = some (.erroredState "FAILED") ∧
      waitForState (fun _ => .ok "FAILED") ["READY"] ["FAILED"] 600 5 1
        = some (.erroredState "FAILED") := by
  have h := poller_error_state_is_immediate (fun _ => .ok "FAILED") ["READY"] ["FAILED"]
    600 5 0 0 0 0 0 none "FAILED" (by decide) rfl (by decide) (by decide)
  exact ⟨h.1, h.2 (by decide) rfl⟩

/-- C8: on the four-interface topology eth0/eth1/eth2 physical with VLANs
10/10/20 and bond0 bond-typed with VLAN 10, the matcher for target VLAN 10
selects exactly eth0 and eth1; bond0 is excluded despite its matching VLAN. -/
theorem interface_matcher_selects_physical_only :
    matchingInterfaces
      [⟨some "eth0", "physical", some 10, []⟩,
       ⟨some "eth1", "physical", some 10, []⟩,
       ⟨some "eth2", "physical", some 20, []⟩,
       ⟨some "bond0", "bond", some 10, []⟩] 10 = ["eth0", "eth1"] := by
  rfl

/-- Helper: the collection fold of `execute_workflow` is a `filterMap` of the
per-result contribution. -/
theorem aggregateResults_eq_filterMap (rs : List (Option String)) :
    aggregateResults rs = rs.filterMap keepId := by
  suffices h : ∀ (acc : List String),
      rs.foldl (fun acc r =>
        match r with
        | some s => if s = "" then acc else acc ++ [s]
        | none => acc) acc = acc ++ rs.filterMap keepId by
    simpa [aggregateResults] using h []
  induction rs with
  | nil => simp
  | cons r rs ih =>
    intro acc
    cases r with
    | none => simp [keepId, ih]
    | some s =>
      by_cases hs : s = "" <;> simp [keepId, hs, ih]

/-- C3 counterexample: two completion orders of the same completed results —
a permutation of each other — produce different aggregate lists, so the final
report is not independent of completion order. -/
theorem aggregate_order_depends_on_completion_order :
    List.Perm [some "b", some "a"] [some "a", (some "b" : Option String)] ∧
      aggregateResults [some "b", some "a"] ≠ aggregateResults [some "a", some "b"] := by
  constructor
  · decide
  · decide

/-- C3 (amended): for a fixed set of completed results, the tally and the
multiset of successful system ids in the aggregate are independent of
completion order, but the order of the aggregate list follows completion
order (it is not sorted by input order). -/
theorem aggregate_multiset_completion_order_independent
    (rs₁ rs₂ : List (Option String)) (h : List.Perm rs₁ rs₂) :
    List.Perm (aggregateResults rs₁) (aggregateResults rs₂) ∧
      (aggregateResults rs₁).length = (aggregateResults rs₂).length := by
  have hp : List.Perm (aggregateResults rs₁) (aggregateResults rs₂) := by
    rw [aggregateResults_eq_filterMap, aggregateResults_eq_filterMap]
    exact h.filterMap keepId
  exact ⟨hp, hp.length_eq⟩

/-- Witness for C3 (amended) on a three-result completion permutation. -/
theorem aggregate_multiset_completion_order_independent_witness :
    List.Perm (aggregateResults [some "b", none, some "a"])
        (aggregateResults [some "a", some "b", none]) ∧
      (aggregateResults [some "b", none, some "a"]).length =
        (aggregateResults [some "a", some "b", none]).length :=
  aggregate_multiset_completion_order_independent
    [some "b", none, some "a"] [some "a", some "b", none] (by decide)

/-- C1 counterexample: a machine whose interface MAC matches the configured
PXE MAC (as `find_by_mac` would report) is nevertheless not located by stage
1 when the configured serial number does not match, because `create_or_find`
searches by serial number only — and no machine is created. -/
theorem lookup_ignores_mac_counterexample :
    findByMac [sampleMachine] "AA:BB:CC:DD:EE:FF" = some sampleMachine ∧
      createOrFind [sampleMachine] ⟨some "h1", some "s9", none⟩ (.ok ()) =
        .ok (none, [sampleMachine]) := by
  constructor
  · decide
  · rfl

/-- C1 (amended): stage 1 locates the machine by serial number only — a
missing or empty `serial_number` raises `ValueError`, an unmatched serial
yields no machine (nothing is ever created, whatever the action set, since
the creation code is unreachable), and a matched serial returns that machine
(with a hostname update when the configured hostname differs). -/
theorem lookup_is_serial_only_and_never_creates
    (machines : List MachineRec) (cfg : MachineCfg) (upd : Except String Unit) :
    (cfg.serial_number = none →
      createOrFind machines cfg upd =
        .error "ValueError: Machine config must have serial_number") ∧
    (∀ s, cfg.serial_number = some s → s ≠ "" → findBySerial machines s = none →
      createOrFind machines cfg upd = .ok (none, machines)) ∧
    (∀ s m, cfg.serial_number = some s → s ≠ "" → cfg.hostname = none →
      findBySerial machines s = some m →
      createOrFind machines cfg upd = .ok (some m, machines)) := by
  refine ⟨fun h => ?_, fun s hs hne hfind => ?_, fun s m hs hne hh hfind => ?_⟩
  · simp [createOrFind, h]
  · simp [createOrFind, hs, hne, hfind]
  · simp [createOrFind, hs, hne, hfind, hh]

/-- Witness for C1 (amended): a config without a serial raises, and an
unmatched serial yields no machine. -/
theorem lookup_is_serial_only_and_never_creates_witness :
    createOrFind [sampleMachine] ⟨none, none, none⟩ (.ok ()) =
        .error "ValueError: Machine config must have serial_number" ∧
      createOrFind [] ⟨none, some "zzz", none⟩ (.ok ()) = .ok (none, []) :=
  ⟨(lookup_is_serial_only_and_never_creates [sampleMachine] ⟨none, none, none⟩ (.ok ())).1 rfl,
    (lookup_is_serial_only_and_never_creates [] ⟨none, some "zzz", none⟩ (.ok ())).2.1
      "zzz" rfl (by decide) rfl⟩

/-- C2 counterexample: with a BIOS stage that raises, the per-machine run
aborts with that exception and the deploy stage requested after it never
runs — the BIOS stage is not best-effort. -/
theorem bios_rejection_aborts_counterexample :
    (executeSingleMachine [sampleMachine] sampleCfg ["find_machine", "set_bios", "deploy"]
        true false { allOkEnv with biosStage := .error "rejected" }).result =
        .error "rejected" ∧
      "deploy" ∉ (executeSingleMachine [sampleMachine] sampleCfg
        ["find_machine", "set_bios", "deploy"] true false
        { allOkEnv with biosStage := .error "rejected" }).trace := by
  constructor
  · rfl
  · decide

/-- C2 (amended): a remote rejection in the BIOS stage is fatal for that
machine — the exception propagates out of `_execute_single_machine`, so no
later stage runs; isolation to that machine comes only from the workflow
wrapper, which catches the exception into a `None` result. -/
theorem bios_rejection_aborts_machine_pipeline
    (machines : List MachineRec) (cfg : MachineCfg) (actions : List String)
    (bootNonempty : Bool) (env : StageEnv) (m : MachineRec) (ms : List MachineRec) (e : String)
    (hfind : createOrFind machines cfg env.updateHostnameOutcome = .ok (some m, ms))
    (hsid : m.system_id ≠ "")
    (hhn : "set_hostname" ∉ actions)
    (hbm : "set_bios" ∈ actions)
    (hpw : env.powerStage = .ok ())
    (hbe : env.biosStage = .error e) :
    (executeSingleMachine machines cfg actions true bootNonempty env).result = .error e ∧
      (executeSingleMachine machines cfg actions true bootNonempty env).trace =
        "find" :: (if "set_power" ∈ actions then ["set_power", "set_bios"]
          else ["set_bios"]) ∧
      executeSingleMachineSafe machines cfg actions true bootNonempty env = none := by
  by_cases hg : "set_power" ∈ actions <;>
    simp [executeSingleMachine, executeSingleMachineSafe, runStages, hfind, hsid, hhn, hbm,
      hpw, hbe, hg]

/-- Witness for C2 (amended) on the sample machine with only set_bios
requested. -/
theorem bios_rejection_aborts_machine_pipeline_witness :
    (executeSingleMachine [sampleMachine] sampleCfg ["set_bios"] true false
        { allOkEnv with biosStage := .error "rejected" }).result = .error "rejected" ∧
      (executeSingleMachine [sampleMachine] sampleCfg ["set_bios"] true false
        { allOkEnv with biosStage := .error "rejected" }).trace =
        "find" :: (if "set_power" ∈ (["set_bios"] : List String) then
          ["set_power", "set_bios"] else ["set_bios"]) ∧
      executeSingleMachineSafe [sampleMachine] sampleCfg ["set_bios"] true false
        { allOkEnv with biosStage := .error "rejected" } = none :=
  bios_rejection_aborts_machine_pipeline [sampleMachine] sampleCfg ["set_bios"] false
    { allOkEnv with biosStage := .error "rejected" } sampleMachine [sampleMachine]
    "rejected" rfl (by decide) (by decide) (by decide) rfl rfl

/-- C9: on a machine found in stage 1, an action set of just delete returns an
absent system id while an action set of just set_power returns the machine's
system id unchanged. -/
theorem delete_returns_absent_id_set_power_returns_id
    (machines : List MachineRec) (cfg : MachineCfg) (biosNonempty bootNonempty : Bool)
    (env : StageEnv) (m : MachineRec) (ms : List MachineRec)
    (hfind : createOrFind machines cfg env.updateHostnameOutcome = .ok (some m, ms))
    (hsid : m.system_id ≠ "")
    (hdel : env.deleteStage = .ok ()) (hpw : env.powerStage = .ok ()) :
    (executeSingleMachine machines cfg ["delete"] biosNonempty bootNonempty env).result =
        .ok none ∧
      (executeSingleMachine machines cfg ["set_power"] biosNonempty bootNonempty env).result =
        .ok (some m.system_id) := by
  constructor <;>
    simp [executeSingleMachine, runStages, hfind, hsid, hdel, hpw]

/-- Witness for C9 on the sample machine. -/
theorem delete_returns_absent_id_set_power_returns_id_witness :
    (executeSingleMachine [sampleMachine] sampleCfg ["delete"] false false allOkEnv).result =
        .ok none ∧
      (executeSingleMachine [sampleMachine] sampleCfg ["set_power"] false false
        allOkEnv).result = .ok (some "abc123") :=
  delete_returns_absent_id_set_power_returns_id [sampleMachine] sampleCfg false false
    allOkEnv sampleMachine [sampleMachine] rfl (by decide) rfl rfl

/-- Helper: whatever the action set and stage outcomes, the remote machine
list observed after step 1 is the one `create_or_find` left behind. -/
theorem executeSingleMachine_machinesAfterLookup
    (machines : List MachineRec) (cfg : MachineCfg) (actions : List String)
    (b1 b2 : Bool) (env : StageEnv) (om : Option MachineRec) (ms : List MachineRec)
    (h : createOrFind machines cfg env.updateHostnameOutcome = .ok (om, ms)) :
    (executeSingleMachine machines cfg actions b1 b2 env).machinesAfterLookup = ms := by
  cases om with
  | none => simp [executeSingleMachine, h]
  | some m =>
    simp only [executeSingleMachine, h]
    split
    · rfl
    · split
      · rfl
      · split
        · split <;> rfl
        · rfl

/-- Helper: `create_or_find` on a serial match whose hostname differs from a
truthy configured hostname issues the PUT and returns the updated machine
with the updated remote list. -/
theorem createOrFind_updates_hostname
    (machines : List MachineRec) (cfg : MachineCfg) (s h : String) (m : MachineRec)
    (hs : cfg.serial_number = some s) (hsne : s ≠ "")
    (hfind : findBySerial machines s = some m)
    (hh : cfg.hostname = some h) (hne : h ≠ "") (hdiff : m.hostname ≠ h) :
    createOrFind machines cfg (.ok ()) =
      .ok (some { m with hostname := h }, updateHostnameState machines m.system_id h) := by
  simp [createOrFind, hs, hsne, hfind, hh, hne, hdiff]

/-- C10: the stage-1 lookup itself mutates remote state — when the configured
hostname differs from the looked-up machine's current hostname, the lookup
rewrites that machine's hostname even though set_hostname is not in the
action set, and every other field of every machine is left unchanged. -/
theorem lookup_updates_hostname_as_side_effect
    (machines : List MachineRec) (cfg : MachineCfg) (actions : List String)
    (b1 b2 : Bool) (env : StageEnv) (s h : String) (m : MachineRec)
    (hact : actions.contains "set_hostname" = false)
    (hs : cfg.serial_number = some s) (hsne : s ≠ "")
    (hfind : findBySerial machines s = some m)
    (hh : cfg.hostname = some h) (hne : h ≠ "") (hdiff : m.hostname ≠ h)
    (hupd : env.updateHostnameOutcome = .ok ()) :
    (executeSingleMachine machines cfg actions b1 b2 env).machinesAfterLookup =
      machines.map fun x =>
        if x.system_id = m.system_id then { x with hostname := h } else x := by
  have hco : createOrFind machines cfg env.updateHostnameOutcome =
      .ok (some { m with hostname := h }, updateHostnameState machines m.system_id h) := by
    rw [hupd]
    exact createOrFind_updates_hostname machines cfg s h m hs hsne hfind hh hne hdiff
  rw [executeSingleMachine_machinesAfterLookup machines cfg actions b1 b2 env _ _ hco]
  rfl

/-- Witness for C10: the sample machine's remote hostname becomes h2 during a
set_power-only run. -/
theorem lookup_updates_hostname_as_side_effect_witness :
    (executeSingleMachine [sampleMachine] ⟨some "h2", some "sn1", none⟩ ["set_power"]
        false false allOkEnv).machinesAfterLookup =
      [sampleMachine].map fun x =>
        if x.system_id = sampleMachine.system_id then { x with hostname := "h2" } else x :=
  lookup_updates_hostname_as_side_effect [sampleMachine] ⟨some "h2", some "sn1", none⟩
    ["set_power"] false false allOkEnv "sn1" "h2" sampleMachine rfl rfl (by decide)
    (by decide) rfl (by decide) (by decide) rfl

end MaasAuto
